import Mathlib

/-!
Shallow embedding of the QuickQuiz API proxy (src/api/anthropic.js),
a Vercel serverless handler that rate-limits POST requests per caller
identity per UTC day via an Upstash Redis counter, and relays permitted
requests to the Anthropic messages endpoint.

JavaScript numbers that can become NaN (the result of parseInt) are
modelled by JsNum; machine-level float subtleties beyond NaN do not
arise since all arithmetic here is small-integer.  The opaque JSON
request body is modelled as a String (the handler never inspects it;
JSON.stringify of the parsed body is modelled as the identity on that
opaque value).  Side effects are traced in the result record:
upstreamCall is the fetch issued (none when no fetch happens),
storeWrite is the successful Redis SET (none when no write happens or
the write throws), readKey is the key passed to Redis GET (none when no
GET happens), and logs collects the fixed console.error message texts.
-/

deriving instance DecidableEq for Except

namespace QuickQuiz

/-- A JavaScript number as used in the handler: an integer or NaN. -/
inductive JsNum where
  | nan : JsNum
  | num : Int → JsNum
deriving DecidableEq, Repr

/-- JS addition on the values the handler produces: NaN propagates. -/
def JsNum.add : JsNum → JsNum → JsNum
  | .num a, .num b => .num (a + b)
  | _, _ => .nan

/-- JS subtraction: NaN propagates. -/
def JsNum.sub : JsNum → JsNum → JsNum
  | .num a, .num b => .num (a - b)
  | _, _ => .nan

/-- JS `>=` as a Bool: any comparison with NaN is false. -/
def JsNum.geB : JsNum → JsNum → Bool
  | .num a, .num b => b ≤ a
  | _, _ => false

/-- JS Math.max on two numbers: Math.max with a NaN argument is NaN. -/
def JsNum.maxJs : JsNum → JsNum → JsNum
  | .num a, .num b => .num (max a b)
  | _, _ => .nan

/-- JS Number.prototype.toString: NaN prints as "NaN". -/
def JsNum.toStr : JsNum → String
  | .nan => "NaN"
  | .num n => toString n

/-- Value of a list of decimal digit characters. -/
def digitsVal (l : List Char) : Int :=
  l.foldl (fun acc c => acc * 10 + ((c.toNat : Int) - 48)) 0

/-- JS parseInt on a string (decimal inputs; the handler only ever
stores small decimal integers): skip leading whitespace, optional sign,
then the longest run of leading decimal digits; NaN when that run is
empty. -/
def parseIntJs (s : String) : JsNum :=
  let cs := s.toList.dropWhile (fun c => c.isWhitespace)
  let sign : Int := if cs.head? = some '-' then -1 else 1
  let cs := if cs.head? = some '-' ∨ cs.head? = some '+' then cs.tail else cs
  let ds := cs.takeWhile (fun c => c.isDigit)
  if ds.isEmpty then .nan else .num (sign * digitsVal ds)

/-- `x || '0'` applied to the Redis GET result: null (missing key) and
the empty string are falsy and replaced by "0". -/
def orZero : Option String → String
  | none => "0"
  | some s => if s = "" then "0" else s

/-- `x || 'unknown'` applied to a header value. -/
def headerOrUnknown : Option String → String
  | none => "unknown"
  | some s => if s = "" then "unknown" else s

/-- JS String.prototype.trim on a character list: strip whitespace from
both ends. -/
def trimList (l : List Char) : List Char :=
  ((l.dropWhile (fun c => c.isWhitespace)).reverse.dropWhile
    (fun c => c.isWhitespace)).reverse

/-- JS String.prototype.split on a single separator character: the list
of chunks between occurrences of the separator (always nonempty). -/
def splitOnChar (sep : Char) : List Char → List (List Char)
  | [] => [[]]
  | c :: rest =>
    match splitOnChar sep rest with
    | [] => [[]]
    | cur :: more =>
      if c = sep then [] :: cur :: more else (c :: cur) :: more

/-- `h?.split(',')[0]?.trim() || 'unknown'` for X-Forwarded-For. -/
def firstForwarded : Option String → String
  | none => "unknown"
  | some s =>
    let first := String.mk (trimList ((splitOnChar ',' s.toList).headD []))
    if first = "" then "unknown" else first

/-- The inbound HTTP request as the handler consumes it. -/
structure Req where
  method : String
  xClientId : Option String
  xForwardedFor : Option String
  body : String
deriving DecidableEq, Repr

/-- Process environment configuration. -/
structure Env where
  upstashUrl : Option String
  upstashToken : Option String
  anthropicApiKey : String
deriving DecidableEq, Repr

/-- The upstream fetch response: HTTP status and body text. -/
structure Upstream where
  status : Nat
  body : String
deriving DecidableEq, Repr

/-- Outcomes of the external calls the handler may make: the Redis GET
(throws or returns an optional stored string), the upstream fetch
(throws at transport level or completes), and whether the Redis SET
would succeed if attempted. -/
structure World where
  storeRead : Except Unit (Option String)
  upstream : Except Unit Upstream
  writeOk : Bool
deriving DecidableEq, Repr

/-- Response.ok: status in the 200-299 range. -/
def upstreamOk (s : Nat) : Bool := 200 ≤ s && s < 300

/-- getRedis: a client exists iff both configuration values are set. -/
def redisConfigured (env : Env) : Bool :=
  env.upstashUrl.isSome && env.upstashToken.isSome

/-- The `usage:<clientId>:<clientIP>:<date>` lookup key. -/
def usageKey (req : Req) (today : String) : String :=
  "usage:" ++ headerOrUnknown req.xClientId ++ ":" ++
    firstForwarded req.xForwardedFor ++ ":" ++ today

/-- `currentUsage` as computed by lines 47-54: 0 when the store is
unconfigured or the GET throws, else parseInt of the value (missing key
read as "0"). -/
def currentUsage (env : Env) (w : World) : JsNum :=
  if redisConfigured env then
    match w.storeRead with
    | .error _ => .num 0
    | .ok v => parseIntJs (orZero v)
  else .num 0

/-- The fetch issued to the Anthropic endpoint. -/
structure UpstreamReq where
  url : String
  method : String
  contentType : String
  apiKey : String
  version : String
  body : String
deriving DecidableEq, Repr

/-- The fetch of lines 74-82. -/
def mkUpstreamReq (env : Env) (body : String) : UpstreamReq :=
  { url := "https://api.anthropic.com/v1/messages"
    method := "POST"
    contentType := "application/json"
    apiKey := env.anthropicApiKey
    version := "2023-06-01"
    body := body }

/-- The response body: nothing (preflight `end()`), a `.json` object of
shape `error: msg`, the structured rate-limit error object, or the
relayed upstream body text. -/
inductive RespBody where
  | empty : RespBody
  | errMsg : String → RespBody
  | errObj : String → String → Nat → JsNum → String → RespBody
  | relay : String → RespBody
deriving DecidableEq, Repr

/-- The `error.type` field of the body, when the body has one. -/
def RespBody.errType : RespBody → Option String
  | .errObj t _ _ _ _ => some t
  | _ => none

/-- The `error.used` field of the body, when the body has one. -/
def RespBody.errUsed : RespBody → Option JsNum
  | .errObj _ _ _ u _ => some u
  | _ => none

/-- The observable outcome of one handler run: the HTTP response
(status, headers set on it, body) plus the traced side effects. -/
structure HandlerResult where
  status : Nat
  headers : List (String × String)
  body : RespBody
  upstreamCall : Option UpstreamReq
  storeWrite : Option (String × JsNum × Nat)
  readKey : Option String
  logs : List String
deriving DecidableEq, Repr

/-- The handler of src/api/anthropic.js, lines 24-103, as a pure
function of the request, environment, external-call outcomes and the
current UTC date string. -/
def handler (req : Req) (env : Env) (w : World) (today : String) : HandlerResult :=
  if req.method = "OPTIONS" then
    { status := 200
      headers := [("Access-Control-Allow-Origin", "*"),
                  ("Access-Control-Allow-Methods", "POST, OPTIONS"),
                  ("Access-Control-Allow-Headers", "Content-Type, X-Client-ID")]
      body := .empty
      upstreamCall := none, storeWrite := none, readKey := none, logs := [] }
  else if req.method ≠ "POST" then
    { status := 405, headers := [], body := .errMsg "Method not allowed"
      upstreamCall := none, storeWrite := none, readKey := none, logs := [] }
  else
    let key := usageKey req today
    let configured := redisConfigured env
    let readKey := if configured then some key else none
    let usage := currentUsage env w
    let readLogs : List String :=
      if configured then
        match w.storeRead with
        | .error _ => ["Redis read error:"]
        | .ok _ => []
      else []
    if usage.geB (.num 10) then
      { status := 429
        headers := [("X-RateLimit-Limit", "10"), ("X-RateLimit-Remaining", "0")]
        body := .errObj "rate_limit_exceeded"
          "Daily limit of 10 quizzes reached. Please try again tomorrow."
          10 usage "midnight UTC"
        upstreamCall := none, storeWrite := none, readKey := readKey, logs := readLogs }
    else
      let upReq := mkUpstreamReq env req.body
      match w.upstream with
      | .error _ =>
        { status := 502, headers := [], body := .errMsg "Failed to reach API"
          upstreamCall := some upReq, storeWrite := none, readKey := readKey
          logs := readLogs ++ ["Anthropic API error:"] }
      | .ok up =>
        let tryWrite := upstreamOk up.status && configured
        let write := if tryWrite && w.writeOk
          then some (key, usage.add (.num 1), 86400) else none
        let writeLogs := if tryWrite && !w.writeOk then ["Redis write error:"] else []
        let remaining := ((JsNum.num 10).sub usage).sub (.num 1)
        { status := up.status
          headers := [("X-RateLimit-Limit", "10"),
                      ("X-RateLimit-Remaining", ((JsNum.num 0).maxJs remaining).toStr)]
          body := .relay up.body
          upstreamCall := some upReq, storeWrite := write, readKey := readKey
          logs := readLogs ++ writeLogs }

/-- Claim C1: for every POST request whose identity has a recorded usage
count u with u ≥ 10 for the current UTC date, the handler responds 429
with error.type "rate_limit_exceeded" and error.used = u, and no
upstream call is made. -/
theorem c1_quota_exceeded_rejects (req : Req) (env : Env) (w : World)
    (today : String) (v : Option String) (u : Int)
    (hm : req.method = "POST")
    (hconf : redisConfigured env = true)
    (hread : w.storeRead = Except.ok v)
    (hparse : parseIntJs (orZero v) = JsNum.num u)
    (h10 : 10 ≤ u) :
    (handler req env w today).status = 429 ∧
    (handler req env w today).body.errType = some "rate_limit_exceeded" ∧
    (handler req env w today).body.errUsed = some (JsNum.num u) ∧
    (handler req env w today).upstreamCall = none := by
  have husage : currentUsage env w = JsNum.num u := by
    simp [currentUsage, hconf, hread, hparse]
  have hge : (JsNum.num u).geB (JsNum.num 10) = true := by
    simp [JsNum.geB, h10]
  simp [handler, hm, hconf, hread, husage, hge, RespBody.errType, RespBody.errUsed]

/-- Witness for C1 at a concrete request with stored count "10". -/
theorem c1_quota_exceeded_rejects_witness :
    (handler { method := "POST", xClientId := some "fp1",
               xForwardedFor := some "1.2.3.4", body := "qbody" }
             { upstashUrl := some "u", upstashToken := some "t",
               anthropicApiKey := "sk" }
             { storeRead := Except.ok (some "10"),
               upstream := Except.ok { status := 200, body := "ok" },
               writeOk := true }
             "2026-10-11").status = 429 ∧
    (handler { method := "POST", xClientId := some "fp1",
               xForwardedFor := some "1.2.3.4", body := "qbody" }
             { upstashUrl := some "u", upstashToken := some "t",
               anthropicApiKey := "sk" }
             { storeRead := Except.ok (some "10"),
               upstream := Except.ok { status := 200, body := "ok" },
               writeOk := true }
             "2026-10-11").body.errType = some "rate_limit_exceeded" ∧
    (handler { method := "POST", xClientId := some "fp1",
               xForwardedFor := some "1.2.3.4", body := "qbody" }
             { upstashUrl := some "u", upstashToken := some "t",
               anthropicApiKey := "sk" }
             { storeRead := Except.ok (some "10"),
               upstream := Except.ok { status := 200, body := "ok" },
               writeOk := true }
             "2026-10-11").body.errUsed = some (JsNum.num 10) ∧
    (handler { method := "POST", xClientId := some "fp1",
               xForwardedFor := some "1.2.3.4", body := "qbody" }
             { upstashUrl := some "u", upstashToken := some "t",
               anthropicApiKey := "sk" }
             { storeRead := Except.ok (some "10"),
               upstream := Except.ok { status := 200, body := "ok" },
               writeOk := true }
             "2026-10-11").upstreamCall = none :=
  c1_quota_exceeded_rejects _ _ _ _ (some "10") 10 rfl rfl rfl (by decide) (by decide)

/-- Claim C2: for a POST request with recorded usage u < 10 on the
current UTC date, a successful upstream call results in the stored
counter set to u+1 with a 24-hour (86400 s) expiry and response header
X-RateLimit-Remaining = 10 - u - 1. -/
theorem c2_success_increments (req : Req) (env : Env) (w : World)
    (today : String) (v : Option String) (u : Int) (up : Upstream)
    (hm : req.method = "POST")
    (hconf : redisConfigured env = true)
    (hread : w.storeRead = Except.ok v)
    (hparse : parseIntJs (orZero v) = JsNum.num u)
    (hu : u < 10)
    (hup : w.upstream = Except.ok up)
    (hok : upstreamOk up.status = true)
    (hw : w.writeOk = true) :
    (handler req env w today).storeWrite =
      some (usageKey req today, JsNum.num (u + 1), 86400) ∧
    ("X-RateLimit-Remaining", toString (10 - u - 1)) ∈
      (handler req env w today).headers := by
  have husage : currentUsage env w = JsNum.num u := by
    simp [currentUsage, hconf, hread, hparse]
  have hlt : (JsNum.num u).geB (JsNum.num 10) = false := by
    simp [JsNum.geB]; omega
  have hmax : max (0 : Int) (10 - u - 1) = 10 - u - 1 := by omega
  simp [handler, hm, hconf, hread, husage, hlt, hup, hok, hw,
    JsNum.add, JsNum.sub, JsNum.maxJs, JsNum.toStr, hmax]

/-- Witness for C2 at a concrete request with stored count "3". -/
theorem c2_success_increments_witness :
    (handler { method := "POST", xClientId := some "fp1",
               xForwardedFor := some "1.2.3.4", body := "qbody" }
             { upstashUrl := some "u", upstashToken := some "t",
               anthropicApiKey := "sk" }
             { storeRead := Except.ok (some "3"),
               upstream := Except.ok { status := 200, body := "ok" },
               writeOk := true }
             "2026-10-11").storeWrite =
      some ("usage:fp1:1.2.3.4:2026-10-11", JsNum.num 4, 86400) ∧
    ("X-RateLimit-Remaining", "6") ∈
      (handler { method := "POST", xClientId := some "fp1",
                 xForwardedFor := some "1.2.3.4", body := "qbody" }
               { upstashUrl := some "u", upstashToken := some "t",
                 anthropicApiKey := "sk" }
               { storeRead := Except.ok (some "3"),
                 upstream := Except.ok { status := 200, body := "ok" },
                 writeOk := true }
               "2026-10-11").headers := by
  have h := c2_success_increments
    { method := "POST", xClientId := some "fp1",
      xForwardedFor := some "1.2.3.4", body := "qbody" }
    { upstashUrl := some "u", upstashToken := some "t", anthropicApiKey := "sk" }
    { storeRead := Except.ok (some "3"),
      upstream := Except.ok { status := 200, body := "ok" }, writeOk := true }
    "2026-10-11" (some "3") 3 { status := 200, body := "ok" }
    rfl rfl rfl (by decide) (by decide) rfl (by decide) rfl
  refine ⟨h.1.trans (by decide), ?_⟩
  have e : ("X-RateLimit-Remaining", toString ((10 : Int) - 3 - 1)) =
      ("X-RateLimit-Remaining", "6") := by decide
  exact e ▸ h.2

/-- Claim C3: for a POST request that passes the quota check, an
upstream call that completes with any HTTP status is relayed to the
caller with its body and status unchanged, and X-RateLimit-Remaining is
limit - countBeforeThisRequest - 1 floored at zero. -/
theorem c3_relay_passthrough (req : Req) (env : Env) (w : World)
    (today : String) (u : Int) (up : Upstream)
    (hm : req.method = "POST")
    (husage : currentUsage env w = JsNum.num u)
    (hu : u < 10)
    (hup : w.upstream = Except.ok up) :
    (handler req env w today).status = up.status ∧
    (handler req env w today).body = RespBody.relay up.body ∧
    ("X-RateLimit-Remaining", toString (max 0 (10 - u - 1))) ∈
      (handler req env w today).headers ∧
    ("X-RateLimit-Limit", "10") ∈ (handler req env w today).headers := by
  have hlt : (JsNum.num u).geB (JsNum.num 10) = false := by
    simp [JsNum.geB]; omega
  simp [handler, hm, husage, hlt, hup,
    JsNum.sub, JsNum.maxJs, JsNum.toStr]

/-- Witness for C3: an unconfigured store (count 0) and an upstream 418
whose status and body come back unchanged. -/
theorem c3_relay_passthrough_witness :
    (handler { method := "POST", xClientId := none,
               xForwardedFor := none, body := "qbody" }
             { upstashUrl := none, upstashToken := none,
               anthropicApiKey := "sk" }
             { storeRead := Except.ok none,
               upstream := Except.ok { status := 418, body := "teapot" },
               writeOk := true }
             "2026-10-11").status = 418 ∧
    (handler { method := "POST", xClientId := none,
               xForwardedFor := none, body := "qbody" }
             { upstashUrl := none, upstashToken := none,
               anthropicApiKey := "sk" }
             { storeRead := Except.ok none,
               upstream := Except.ok { status := 418, body := "teapot" },
               writeOk := true }
             "2026-10-11").body = RespBody.relay "teapot" ∧
    ("X-RateLimit-Remaining", "9") ∈
      (handler { method := "POST", xClientId := none,
                 xForwardedFor := none, body := "qbody" }
               { upstashUrl := none, upstashToken := none,
                 anthropicApiKey := "sk" }
               { storeRead := Except.ok none,
                 upstream := Except.ok { status := 418, body := "teapot" },
                 writeOk := true }
               "2026-10-11").headers ∧
    ("X-RateLimit-Limit", "10") ∈
      (handler { method := "POST", xClientId := none,
                 xForwardedFor := none, body := "qbody" }
               { upstashUrl := none, upstashToken := none,
                 anthropicApiKey := "sk" }
               { storeRead := Except.ok none,
                 upstream := Except.ok { status := 418, body := "teapot" },
                 writeOk := true }
               "2026-10-11").headers := by
  have h := c3_relay_passthrough
    { method := "POST", xClientId := none, xForwardedFor := none, body := "qbody" }
    { upstashUrl := none, upstashToken := none, anthropicApiKey := "sk" }
    { storeRead := Except.ok none,
      upstream := Except.ok { status := 418, body := "teapot" }, writeOk := true }
    "2026-10-11" 0 { status := 418, body := "teapot" }
    rfl (by decide) (by decide) rfl
  have e : ("X-RateLimit-Remaining", toString (max (0 : Int) (10 - 0 - 1))) =
      ("X-RateLimit-Remaining", "9") := by decide
  exact ⟨h.1, h.2.1, e ▸ h.2.2.1, h.2.2.2⟩

/-- Claim C4: for a POST request that passes the quota check, a
transport-level upstream failure (fetch throws) yields status 502 with
the generic error body, and the stored counter is not written. -/
theorem c4_transport_failure (req : Req) (env : Env) (w : World)
    (today : String)
    (hm : req.method = "POST")
    (hq : (currentUsage env w).geB (JsNum.num 10) = false)
    (herr : w.upstream = Except.error ()) :
    (handler req env w today).status = 502 ∧
    (handler req env w today).body = RespBody.errMsg "Failed to reach API" ∧
    (handler req env w today).storeWrite = none := by
  simp [handler, hm, hq, herr]

/-- Witness for C4: configured store with count 2, fetch throws. -/
theorem c4_transport_failure_witness :
    (handler { method := "POST", xClientId := some "fp1",
               xForwardedFor := some "1.2.3.4", body := "qbody" }
             { upstashUrl := some "u", upstashToken := some "t",
               anthropicApiKey := "sk" }
             { storeRead := Except.ok (some "2"),
               upstream := Except.error (),
               writeOk := true }
             "2026-10-11").status = 502 ∧
    (handler { method := "POST", xClientId := some "fp1",
               xForwardedFor := some "1.2.3.4", body := "qbody" }
             { upstashUrl := some "u", upstashToken := some "t",
               anthropicApiKey := "sk" }
             { storeRead := Except.ok (some "2"),
               upstream := Except.error (),
               writeOk := true }
             "2026-10-11").body = RespBody.errMsg "Failed to reach API" ∧
    (handler { method := "POST", xClientId := some "fp1",
               xForwardedFor := some "1.2.3.4", body := "qbody" }
             { upstashUrl := some "u", upstashToken := some "t",
               anthropicApiKey := "sk" }
             { storeRead := Except.ok (some "2"),
               upstream := Except.error (),
               writeOk := true }
             "2026-10-11").storeWrite = none :=
  c4_transport_failure _ _ _ _ rfl (by decide) rfl

/-- Claim C5: for a POST request, when the store is unconfigured or the
store read fails, the request proceeds with count 0 (fail-open): the
upstream call is still made, and a store write failure does not alter
the response status, body or headers. -/
theorem c5_fail_open (req : Req) (env : Env) (today : String)
    (sr : Except Unit (Option String)) (upv : Except Unit Upstream)
    (b b' : Bool)
    (hm : req.method = "POST")
    (hfail : redisConfigured env = false ∨ sr = Except.error ()) :
    currentUsage env ⟨sr, upv, b⟩ = JsNum.num 0 ∧
    (handler req env ⟨sr, upv, b⟩ today).upstreamCall.isSome = true ∧
    ((handler req env ⟨sr, upv, b'⟩ today).status =
        (handler req env ⟨sr, upv, b⟩ today).status ∧
      (handler req env ⟨sr, upv, b'⟩ today).body =
        (handler req env ⟨sr, upv, b⟩ today).body ∧
      (handler req env ⟨sr, upv, b'⟩ today).headers =
        (handler req env ⟨sr, upv, b⟩ today).headers) := by
  have husage : ∀ bb, currentUsage env ⟨sr, upv, bb⟩ = JsNum.num 0 := by
    intro bb
    rcases hfail with h | h <;> simp [currentUsage, h]
  have hlt : (JsNum.num 0).geB (JsNum.num 10) = false := by decide
  refine ⟨husage b, ?_, ?_⟩
  · rcases upv with _ | up <;> simp [handler, hm, husage, hlt]
  · rcases upv with _ | up <;> simp [handler, hm, husage, hlt]

/-- Witness for C5: unconfigured store, upstream 200, write would fail. -/
theorem c5_fail_open_witness :
    currentUsage
      { upstashUrl := none, upstashToken := none, anthropicApiKey := "sk" }
      { storeRead := Except.ok none,
        upstream := Except.ok { status := 200, body := "ok" },
        writeOk := true } = JsNum.num 0 ∧
    (handler { method := "POST", xClientId := some "fp1",
               xForwardedFor := some "1.2.3.4", body := "qbody" }
             { upstashUrl := none, upstashToken := none, anthropicApiKey := "sk" }
             { storeRead := Except.ok none,
               upstream := Except.ok { status := 200, body := "ok" },
               writeOk := true }
             "2026-10-11").upstreamCall.isSome = true ∧
    ((handler { method := "POST", xClientId := some "fp1",
                xForwardedFor := some "1.2.3.4", body := "qbody" }
              { upstashUrl := none, upstashToken := none, anthropicApiKey := "sk" }
              { storeRead := Except.ok none,
                upstream := Except.ok { status := 200, body := "ok" },
                writeOk := false }
              "2026-10-11").status =
        (handler { method := "POST", xClientId := some "fp1",
                   xForwardedFor := some "1.2.3.4", body := "qbody" }
                 { upstashUrl := none, upstashToken := none, anthropicApiKey := "sk" }
                 { storeRead := Except.ok none,
                   upstream := Except.ok { status := 200, body := "ok" },
                   writeOk := true }
                 "2026-10-11").status ∧
      (handler { method := "POST", xClientId := some "fp1",
                 xForwardedFor := some "1.2.3.4", body := "qbody" }
               { upstashUrl := none, upstashToken := none, anthropicApiKey := "sk" }
               { storeRead := Except.ok none,
                 upstream := Except.ok { status := 200, body := "ok" },
                 writeOk := false }
               "2026-10-11").body =
        (handler { method := "POST", xClientId := some "fp1",
                   xForwardedFor := some "1.2.3.4", body := "qbody" }
                 { upstashUrl := none, upstashToken := none, anthropicApiKey := "sk" }
                 { storeRead := Except.ok none,
                   upstream := Except.ok { status := 200, body := "ok" },
                   writeOk := true }
                 "2026-10-11").body ∧
      (handler { method := "POST", xClientId := some "fp1",
                 xForwardedFor := some "1.2.3.4", body := "qbody" }
               { upstashUrl := none, upstashToken := none, anthropicApiKey := "sk" }
               { storeRead := Except.ok none,
                 upstream := Except.ok { status := 200, body := "ok" },
                 writeOk := false }
               "2026-10-11").headers =
        (handler { method := "POST", xClientId := some "fp1",
                   xForwardedFor := some "1.2.3.4", body := "qbody" }
                 { upstashUrl := none, upstashToken := none, anthropicApiKey := "sk" }
                 { storeRead := Except.ok none,
                   upstream := Except.ok { status := 200, body := "ok" },
                   writeOk := true }
                 "2026-10-11").headers) :=
  c5_fail_open
    { method := "POST", xClientId := some "fp1",
      xForwardedFor := some "1.2.3.4", body := "qbody" }
    { upstashUrl := none, upstashToken := none, anthropicApiKey := "sk" }
    "2026-10-11" (Except.ok none) (Except.ok { status := 200, body := "ok" })
    true false rfl (Or.inl rfl)

/-- Claim C7: whenever the handler issues an upstream call, the body it
sends upstream is the inbound request body, unmodified. -/
theorem c7_body_passthrough (req : Req) (env : Env) (w : World)
    (today : String) (c : UpstreamReq)
    (h : (handler req env w today).upstreamCall = some c) :
    c.body = req.body := by
  by_cases h1 : req.method = "OPTIONS"
  · simp [handler, h1] at h
  · by_cases h2 : req.method = "POST"
    · cases h3 : (currentUsage env w).geB (JsNum.num 10) with
      | true => simp [handler, h1, h2, h3] at h
      | false =>
        rcases h4 : w.upstream with _ | up <;>
          simp only [handler, h1, h2, h3, h4] at h <;>
          simp at h <;> subst h <;> rfl
    · simp [handler, h1, h2] at h

/-- Witness for C7 at a concrete forwarded request. -/
theorem c7_body_passthrough_witness :
    (handler { method := "POST", xClientId := some "fp1",
               xForwardedFor := some "1.2.3.4", body := "qbody" }
             { upstashUrl := some "u", upstashToken := some "t",
               anthropicApiKey := "sk" }
             { storeRead := Except.ok (some "3"),
               upstream := Except.ok { status := 200, body := "ok" },
               writeOk := true }
             "2026-10-11").upstreamCall =
      some (mkUpstreamReq
        { upstashUrl := some "u", upstashToken := some "t",
          anthropicApiKey := "sk" } "qbody") ∧
    (mkUpstreamReq
      { upstashUrl := some "u", upstashToken := some "t",
        anthropicApiKey := "sk" } "qbody").body = "qbody" :=
  ⟨by decide,
    c7_body_passthrough
      { method := "POST", xClientId := some "fp1",
        xForwardedFor := some "1.2.3.4", body := "qbody" }
      { upstashUrl := some "u", upstashToken := some "t",
        anthropicApiKey := "sk" }
      { storeRead := Except.ok (some "3"),
        upstream := Except.ok { status := 200, body := "ok" },
        writeOk := true }
      "2026-10-11"
      (mkUpstreamReq
        { upstashUrl := some "u", upstashToken := some "t",
          anthropicApiKey := "sk" } "qbody")
      (by decide)⟩

/-- Claim C9: an OPTIONS request yields status 200 with the permissive
CORS headers and nothing else: no store read, no store write, no
upstream call, independent of the environment and the external world. -/
theorem c9_preflight (req : Req) (env : Env) (w : World) (today : String)
    (hm : req.method = "OPTIONS") :
    handler req env w today =
      { status := 200
        headers := [("Access-Control-Allow-Origin", "*"),
                    ("Access-Control-Allow-Methods", "POST, OPTIONS"),
                    ("Access-Control-Allow-Headers", "Content-Type, X-Client-ID")]
        body := RespBody.empty
        upstreamCall := none, storeWrite := none, readKey := none
        logs := [] } := by
  simp [handler, hm]

/-- Witness for C9 at a concrete OPTIONS request. -/
theorem c9_preflight_witness :
    handler { method := "OPTIONS", xClientId := some "fp1",
              xForwardedFor := some "1.2.3.4", body := "qbody" }
            { upstashUrl := some "u", upstashToken := some "t",
              anthropicApiKey := "sk" }
            { storeRead := Except.ok (some "3"),
              upstream := Except.ok { status := 200, body := "ok" },
              writeOk := true }
            "2026-10-11" =
      { status := 200
        headers := [("Access-Control-Allow-Origin", "*"),
                    ("Access-Control-Allow-Methods", "POST, OPTIONS"),
                    ("Access-Control-Allow-Headers", "Content-Type, X-Client-ID")]
        body := RespBody.empty
        upstreamCall := none, storeWrite := none, readKey := none
        logs := [] } :=
  c9_preflight
    { method := "OPTIONS", xClientId := some "fp1",
      xForwardedFor := some "1.2.3.4", body := "qbody" }
    { upstashUrl := some "u", upstashToken := some "t", anthropicApiKey := "sk" }
    { storeRead := Except.ok (some "3"),
      upstream := Except.ok { status := 200, body := "ok" }, writeOk := true }
    "2026-10-11" rfl

/-- Counterexample to claim C6 as stated: on the POST path with the
upstream fetch throwing, the 502 response carries neither
X-RateLimit-Limit nor X-RateLimit-Remaining. -/
theorem c6_counterexample :
    (handler { method := "POST", xClientId := some "fp1",
               xForwardedFor := some "1.2.3.4", body := "qbody" }
             { upstashUrl := some "u", upstashToken := some "t",
               anthropicApiKey := "sk" }
             { storeRead := Except.ok (some "2"),
               upstream := Except.error (),
               writeOk := true }
             "2026-10-11").status = 502 ∧
    ((handler { method := "POST", xClientId := some "fp1",
                xForwardedFor := some "1.2.3.4", body := "qbody" }
              { upstashUrl := some "u", upstashToken := some "t",
                anthropicApiKey := "sk" }
              { storeRead := Except.ok (some "2"),
                upstream := Except.error (),
                writeOk := true }
              "2026-10-11").headers.lookup "X-RateLimit-Limit") = none ∧
    ((handler { method := "POST", xClientId := some "fp1",
                xForwardedFor := some "1.2.3.4", body := "qbody" }
              { upstashUrl := some "u", upstashToken := some "t",
                anthropicApiKey := "sk" }
              { storeRead := Except.ok (some "2"),
                upstream := Except.error (),
                writeOk := true }
              "2026-10-11").headers.lookup "X-RateLimit-Remaining") = none := by
  refine ⟨by decide, by decide, by decide⟩

/-- Claim C6 amended: every quota-rejected 429 response and every
upstream-relay response on the POST path carries both X-RateLimit-Limit
and X-RateLimit-Remaining; the upstream-unreachable 502 response
carries neither (its header list is empty). -/
theorem c6_headers_amended (req : Req) (env : Env) (w : World)
    (today : String)
    (hm : req.method = "POST") :
    (∀ up, w.upstream = Except.ok up →
      ((handler req env w today).headers.lookup "X-RateLimit-Limit").isSome = true ∧
      ((handler req env w today).headers.lookup "X-RateLimit-Remaining").isSome = true) ∧
    ((currentUsage env w).geB (JsNum.num 10) = true →
      ((handler req env w today).headers.lookup "X-RateLimit-Limit").isSome = true ∧
      ((handler req env w today).headers.lookup "X-RateLimit-Remaining").isSome = true) ∧
    (w.upstream = Except.error () →
      (currentUsage env w).geB (JsNum.num 10) = false →
      (handler req env w today).headers = []) := by
  refine ⟨?_, ?_, ?_⟩
  · intro up hup
    cases hq : (currentUsage env w).geB (JsNum.num 10) <;>
      simp [handler, hm, hq, hup, List.lookup]
  · intro hq
    simp [handler, hm, hq, List.lookup]
  · intro herr hq
    simp [handler, hm, hq, herr]

/-- Witness for the amended C6 on the relay branch. -/
theorem c6_headers_amended_witness :
    ((handler { method := "POST", xClientId := some "fp1",
                xForwardedFor := some "1.2.3.4", body := "qbody" }
              { upstashUrl := some "u", upstashToken := some "t",
                anthropicApiKey := "sk" }
              { storeRead := Except.ok (some "3"),
                upstream := Except.ok { status := 200, body := "ok" },
                writeOk := true }
              "2026-10-11").headers.lookup "X-RateLimit-Limit").isSome = true ∧
    ((handler { method := "POST", xClientId := some "fp1",
                xForwardedFor := some "1.2.3.4", body := "qbody" }
              { upstashUrl := some "u", upstashToken := some "t",
                anthropicApiKey := "sk" }
              { storeRead := Except.ok (some "3"),
                upstream := Except.ok { status := 200, body := "ok" },
                writeOk := true }
              "2026-10-11").headers.lookup "X-RateLimit-Remaining").isSome = true :=
  (c6_headers_amended
    { method := "POST", xClientId := some "fp1",
      xForwardedFor := some "1.2.3.4", body := "qbody" }
    { upstashUrl := some "u", upstashToken := some "t", anthropicApiKey := "sk" }
    { storeRead := Except.ok (some "3"),
      upstream := Except.ok { status := 200, body := "ok" }, writeOk := true }
    "2026-10-11" rfl).1 { status := 200, body := "ok" } rfl

/-- Claim C8: the credential header on the upstream call is exactly the
server-held configuration value, independent of the inbound request;
and the caller-visible response (status, headers, body) and the log
lines are independent of that credential, so the key is never echoed to
the response nor written to the logs. -/
theorem c8_key_confidential (req : Req) (env : Env) (w : World)
    (today : String) (k : String) :
    (∀ c, (handler req env w today).upstreamCall = some c →
      c.apiKey = env.anthropicApiKey) ∧
    ((handler req { env with anthropicApiKey := k } w today).status =
        (handler req env w today).status ∧
      (handler req { env with anthropicApiKey := k } w today).headers =
        (handler req env w today).headers ∧
      (handler req { env with anthropicApiKey := k } w today).body =
        (handler req env w today).body ∧
      (handler req { env with anthropicApiKey := k } w today).logs =
        (handler req env w today).logs) := by
  have hcu : currentUsage { env with anthropicApiKey := k } w =
      currentUsage env w := rfl
  have hrc : redisConfigured { env with anthropicApiKey := k } =
      redisConfigured env := rfl
  constructor
  · intro c h
    by_cases h1 : req.method = "OPTIONS"
    · simp [handler, h1] at h
    · by_cases h2 : req.method = "POST"
      · cases h3 : (currentUsage env w).geB (JsNum.num 10) with
        | true => simp [handler, h1, h2, h3] at h
        | false =>
          rcases h4 : w.upstream with _ | up <;>
            simp only [handler, h1, h2, h3, h4] at h <;>
            simp at h <;> subst h <;> rfl
      · simp [handler, h1, h2] at h
  · by_cases h1 : req.method = "OPTIONS"
    · simp [handler, h1]
    · by_cases h2 : req.method = "POST"
      · cases h3 : (currentUsage env w).geB (JsNum.num 10) with
        | true => simp [handler, h1, h2, h3, hcu, hrc]
        | false =>
          rcases h4 : w.upstream with _ | up <;>
            simp [handler, h1, h2, h3, h4, hcu, hrc]
      · simp [handler, h1, h2]

/-- Witness for C8: a concrete forwarded request carries the configured
key, and swapping the key leaves the response unchanged. -/
theorem c8_key_confidential_witness :
    (mkUpstreamReq
      { upstashUrl := some "u", upstashToken := some "t",
        anthropicApiKey := "sk" } "qbody").apiKey = "sk" ∧
    (handler { method := "POST", xClientId := some "fp1",
               xForwardedFor := some "1.2.3.4", body := "qbody" }
             { upstashUrl := some "u", upstashToken := some "t",
               anthropicApiKey := "sk2" }
             { storeRead := Except.ok (some "3"),
               upstream := Except.ok { status := 200, body := "ok" },
               writeOk := true }
             "2026-10-11").status =
      (handler { method := "POST", xClientId := some "fp1",
                 xForwardedFor := some "1.2.3.4", body := "qbody" }
               { upstashUrl := some "u", upstashToken := some "t",
                 anthropicApiKey := "sk" }
               { storeRead := Except.ok (some "3"),
                 upstream := Except.ok { status := 200, body := "ok" },
                 writeOk := true }
               "2026-10-11").status :=
  ⟨(c8_key_confidential
      { method := "POST", xClientId := some "fp1",
        xForwardedFor := some "1.2.3.4", body := "qbody" }
      { upstashUrl := some "u", upstashToken := some "t", anthropicApiKey := "sk" }
      { storeRead := Except.ok (some "3"),
        upstream := Except.ok { status := 200, body := "ok" }, writeOk := true }
      "2026-10-11" "sk2").1
      (mkUpstreamReq
        { upstashUrl := some "u", upstashToken := some "t",
          anthropicApiKey := "sk" } "qbody")
      (by decide),
    (c8_key_confidential
      { method := "POST", xClientId := some "fp1",
        xForwardedFor := some "1.2.3.4", body := "qbody" }
      { upstashUrl := some "u", upstashToken := some "t", anthropicApiKey := "sk" }
      { storeRead := Except.ok (some "3"),
        upstream := Except.ok { status := 200, body := "ok" }, writeOk := true }
      "2026-10-11" "sk2").2.1⟩

/-- Claim C10: a stored counter value that is a nonempty string not
parseable as an integer makes parseInt yield NaN, so the quota check
currentUsage ≥ 10 is false and the request proceeds upstream, and on
the relay path the X-RateLimit-Remaining header is the string "NaN". -/
theorem c10_nan_counter (req : Req) (env : Env) (w : World)
    (today : String) (s : String) (up : Upstream)
    (hm : req.method = "POST")
    (hconf : redisConfigured env = true)
    (hread : w.storeRead = Except.ok (some s))
    (hs : ¬s = "")
    (hnan : parseIntJs s = JsNum.nan)
    (hup : w.upstream = Except.ok up) :
    currentUsage env w = JsNum.nan ∧
    (currentUsage env w).geB (JsNum.num 10) = false ∧
    (handler req env w today).upstreamCall.isSome = true ∧
    (handler req env w today).status = up.status ∧
    ("X-RateLimit-Remaining", "NaN") ∈ (handler req env w today).headers := by
  have horz : orZero (some s) = s := by simp [orZero, hs]
  have husage : currentUsage env w = JsNum.nan := by
    simp [currentUsage, hconf, hread, horz, hnan]
  have hge : JsNum.nan.geB (JsNum.num 10) = false := rfl
  refine ⟨husage, by rw [husage]; exact hge, ?_, ?_, ?_⟩ <;>
    simp [handler, hm, husage, hge, hup, JsNum.sub, JsNum.maxJs, JsNum.toStr]

/-- Witness for C10 with stored value "abc". -/
theorem c10_nan_counter_witness :
    currentUsage
      { upstashUrl := some "u", upstashToken := some "t", anthropicApiKey := "sk" }
      { storeRead := Except.ok (some "abc"),
        upstream := Except.ok { status := 200, body := "ok" },
        writeOk := true } = JsNum.nan ∧
    (currentUsage
      { upstashUrl := some "u", upstashToken := some "t", anthropicApiKey := "sk" }
      { storeRead := Except.ok (some "abc"),
        upstream := Except.ok { status := 200, body := "ok" },
        writeOk := true }).geB (JsNum.num 10) = false ∧
    (handler { method := "POST", xClientId := some "fp1",
               xForwardedFor := some "1.2.3.4", body := "qbody" }
             { upstashUrl := some "u", upstashToken := some "t",
               anthropicApiKey := "sk" }
             { storeRead := Except.ok (some "abc"),
               upstream := Except.ok { status := 200, body := "ok" },
               writeOk := true }
             "2026-10-11").upstreamCall.isSome = true ∧
    (handler { method := "POST", xClientId := some "fp1",
               xForwardedFor := some "1.2.3.4", body := "qbody" }
             { upstashUrl := some "u", upstashToken := some "t",
               anthropicApiKey := "sk" }
             { storeRead := Except.ok (some "abc"),
               upstream := Except.ok { status := 200, body := "ok" },
               writeOk := true }
             "2026-10-11").status = 200 ∧
    ("X-RateLimit-Remaining", "NaN") ∈
      (handler { method := "POST", xClientId := some "fp1",
                 xForwardedFor := some "1.2.3.4", body := "qbody" }
               { upstashUrl := some "u", upstashToken := some "t",
                 anthropicApiKey := "sk" }
               { storeRead := Except.ok (some "abc"),
                 upstream := Except.ok { status := 200, body := "ok" },
                 writeOk := true }
               "2026-10-11").headers := by
  have h := c10_nan_counter
    { method := "POST", xClientId := some "fp1",
      xForwardedFor := some "1.2.3.4", body := "qbody" }
    { upstashUrl := some "u", upstashToken := some "t", anthropicApiKey := "sk" }
    { storeRead := Except.ok (some "abc"),
      upstream := Except.ok { status := 200, body := "ok" }, writeOk := true }
    "2026-10-11" "abc" { status := 200, body := "ok" }
    rfl rfl rfl (by decide) (by decide) rfl
  exact ⟨h.1, h.2.1, h.2.2.1, h.2.2.2.1, h.2.2.2.2⟩

end QuickQuiz
